import Mathlib

/-!
# Verification of the xarch hardware-intrinsic descriptor engine

Shallow embedding of `src/jit/hwintrinsicxarch.h` (the `HWIntrinsicCategory`
and `HWIntrinsicFlag` enumerations, the `HWIntrinsicInfo` descriptor record
and its inline static member functions).  Parts of the engine that live in
the corresponding `.cpp` translation unit (the descriptor table itself,
`lookup`, the name resolver, `lookupImmUpperBound`, `isInImmRange`, the
signature-aware `lookupSimdSize` overload and the importer's non-constant
immediate fallback) are modelled from the specification, each marked
`Modelled from the spec:` in its doc comment.

Machine integers: the C++ `unsigned int` flag word is modelled as `Nat`
(all flag masks are below 2^32, and the predicates only perform `&`
against single-bit masks, which can never overflow, so no `% 2^32` is
needed anywhere).  `int`-typed immediate values are modelled as `Int`.
-/

namespace HWIntrinsicXArch

/-- Embeds `enum HWIntrinsicCategory` from hwintrinsicxarch.h. -/
inductive HWIntrinsicCategory where
  | HW_Category_SimpleSIMD
  | HW_Category_IsSupportedProperty
  | HW_Category_IMM
  | HW_Category_Scalar
  | HW_Category_SIMDScalar
  | HW_Category_MemoryLoad
  | HW_Category_MemoryStore
  | HW_Category_Helper
  | HW_Category_Special
deriving DecidableEq, Repr

/-! `enum HWIntrinsicFlag` from hwintrinsicxarch.h: single-bit masks over an
`unsigned int` flag word, modelled as `Nat` constants. -/

def HW_Flag_NoFlag : Nat := 0
def HW_Flag_Commutative : Nat := 0x1
def HW_Flag_FullRangeIMM : Nat := 0x2
def HW_Flag_OneTypeGeneric : Nat := 0x4
def HW_Flag_TwoTypeGeneric : Nat := 0x8
def HW_Flag_NoCodeGen : Nat := 0x10
def HW_Flag_UnfixedSIMDSize : Nat := 0x20
def HW_Flag_MultiIns : Nat := 0x80
def HW_Flag_NoContainment : Nat := 0x100
def HW_Flag_CopyUpperBits : Nat := 0x200
def HW_Flag_BaseTypeFromFirstArg : Nat := 0x400
def HW_Flag_NoFloatingPointUsed : Nat := 0x800
def HW_Flag_MaybeIMM : Nat := 0x1000
def HW_Flag_NoJmpTableIMM : Nat := 0x2000
def HW_Flag_64BitOnly : Nat := 0x4000
def HW_Flag_SecondArgMaybe64Bit : Nat := 0x8000
def HW_Flag_BaseTypeFromSecondArg : Nat := 0x10000
def HW_Flag_SpecialCodeGen : Nat := 0x20000
def HW_Flag_NoRMWSemantics : Nat := 0x40000
def HW_Flag_SpecialImport : Nat := 0x80000
def HW_Flag_MaybeMemoryLoad : Nat := 0x100000
def HW_Flag_MaybeMemoryStore : Nat := 0x200000

/-- The JIT `instruction` enum (instrsxarch.h, outside src/): opaque opcode
numbers; `INS_invalid = 0` is the "unsupported for this element type"
sentinel. -/
abbrev instruction := Nat

def INS_invalid : instruction := 0

/-- Embeds `struct HWIntrinsicInfo` (the per-intrinsic descriptor record): fields in
source order.  The C++ fixed array `instruction ins[10]` is modelled as a
total function on `Fin 10`. -/
structure HWIntrinsicInfo where
  id : Nat
  name : String
  isa : Nat
  ival : Int
  simdSize : Nat
  numArgs : Int
  ins : Fin 10 → instruction
  category : HWIntrinsicCategory
  flags : Nat

def defaultInfo : HWIntrinsicInfo :=
  { id := 0, name := "", isa := 0, ival := 0, simdSize := 0, numArgs := 0,
    ins := fun _ => INS_invalid, category := .HW_Category_Special,
    flags := HW_Flag_NoFlag }

instance : Inhabited HWIntrinsicInfo := ⟨defaultInfo⟩

/-- Sentinel `NI_Illegal`: the "not recognized" sentinel of the `NamedIntrinsic`
enumeration (defined outside src/; only its sentinel role matters here). -/
def NI_Illegal : Nat := 0

/-- Sentinel `InstructionSet_ILLEGAL`: the "not recognized" sentinel of the
`InstructionSet` enumeration. -/
def InstructionSet_ILLEGAL : Nat := 0

/-- The process-wide immutable registry state the static member functions
read.  `hwIntrinsicInfoArray` (the authored static table, outside src/) is
`table`, indexed by `id - start - 1` where `start` plays the role of
`NI_HW_INTRINSIC_START`; `immUpperBoundData` is the per-intrinsic authored
non-full-range immediate bound (the spec: "the bound is intrinsic-specific
... supplied as part of the per-intrinsic data"); `isaNames` is the
extension-class-name to `InstructionSet` mapping used by the name
resolver. -/
structure Registry where
  start : Nat
  table : List HWIntrinsicInfo
  immUpperBoundData : Nat → Int
  isaNames : List (String × Nat)

/-- An intrinsic identifier is registered when it falls in the table's
id range `start+1 .. start+table.length`. -/
def Registry.isRegistered (reg : Registry) (id : Nat) : Prop :=
  reg.start < id ∧ id - reg.start - 1 < reg.table.length

instance (reg : Registry) (id : Nat) : Decidable (reg.isRegistered id) := by
  unfold Registry.isRegistered; infer_instance

/-- Modelled from the spec: `HWIntrinsicInfo::lookup` (implemented in the
.cpp file, outside src/) returns the table row at index
`id - NI_HW_INTRINSIC_START - 1`; a miss is an internal-consistency failure
(assert), modelled by a default row. -/
def lookup (reg : Registry) (id : Nat) : HWIntrinsicInfo :=
  reg.table.getD (id - reg.start - 1) defaultInfo

/-- Embeds `HWIntrinsicInfo::lookupId(NamedIntrinsic)` (member lookup, in src/):
`return lookup(id).id;`. -/
def lookupId (reg : Registry) (id : Nat) : Nat :=
  (lookup reg id).id

/-- Embeds `HWIntrinsicInfo::lookupName`: `return lookup(id).name;`. -/
def lookupName (reg : Registry) (id : Nat) : String :=
  (lookup reg id).name

/-- Embeds `HWIntrinsicInfo::lookupIsa(NamedIntrinsic)`: `return lookup(id).isa;`. -/
def lookupIsaOfId (reg : Registry) (id : Nat) : Nat :=
  (lookup reg id).isa

/-- Embeds `HWIntrinsicInfo::lookupIval`: `return lookup(id).ival;`. -/
def lookupIval (reg : Registry) (id : Nat) : Int :=
  (lookup reg id).ival

/-- Embeds `HWIntrinsicInfo::lookupSimdSize(NamedIntrinsic)` (member lookup, in
src/): `return lookup(id).simdSize;`. -/
def lookupSimdSize (reg : Registry) (id : Nat) : Nat :=
  (lookup reg id).simdSize

/-- Embeds `HWIntrinsicInfo::lookupNumArgs(NamedIntrinsic)`:
`return lookup(id).numArgs;`. -/
def lookupNumArgs (reg : Registry) (id : Nat) : Int :=
  (lookup reg id).numArgs

/-- Embeds `HWIntrinsicInfo::lookupCategory`: `return lookup(id).category;`. -/
def lookupCategory (reg : Registry) (id : Nat) : HWIntrinsicCategory :=
  (lookup reg id).category

/-- Embeds `HWIntrinsicInfo::lookupFlags`: `return lookup(id).flags;`. -/
def lookupFlags (reg : Registry) (id : Nat) : Nat :=
  (lookup reg id).flags

/-! ## Flag predicates (src/jit/hwintrinsicxarch.h lines 210-334)

Each C++ predicate reads `lookupFlags(id)` and tests one mask, either
`(flags & mask) != 0` (positive polarity) or `(flags & mask) == 0`
(negated polarity).  The flag-word-level computation is factored out so
flag independence (a property of the flag word alone) can be stated; the
id-level predicate applies it to `lookupFlags id`, exactly as the source
does. -/

def IsCommutativeF (flags : Nat) : Bool := (flags &&& HW_Flag_Commutative) != 0
def IsCommutative (reg : Registry) (id : Nat) : Bool := IsCommutativeF (lookupFlags reg id)

def HasFullRangeImmF (flags : Nat) : Bool := (flags &&& HW_Flag_FullRangeIMM) != 0
def HasFullRangeImm (reg : Registry) (id : Nat) : Bool := HasFullRangeImmF (lookupFlags reg id)

def IsOneTypeGenericF (flags : Nat) : Bool := (flags &&& HW_Flag_OneTypeGeneric) != 0
def IsOneTypeGeneric (reg : Registry) (id : Nat) : Bool := IsOneTypeGenericF (lookupFlags reg id)

def IsTwoTypeGenericF (flags : Nat) : Bool := (flags &&& HW_Flag_TwoTypeGeneric) != 0
def IsTwoTypeGeneric (reg : Registry) (id : Nat) : Bool := IsTwoTypeGenericF (lookupFlags reg id)

def RequiresCodegenF (flags : Nat) : Bool := (flags &&& HW_Flag_NoCodeGen) == 0
def RequiresCodegen (reg : Registry) (id : Nat) : Bool := RequiresCodegenF (lookupFlags reg id)

def HasFixedSimdSizeF (flags : Nat) : Bool := (flags &&& HW_Flag_UnfixedSIMDSize) == 0
def HasFixedSimdSize (reg : Registry) (id : Nat) : Bool := HasFixedSimdSizeF (lookupFlags reg id)

def GeneratesMultipleInsF (flags : Nat) : Bool := (flags &&& HW_Flag_MultiIns) != 0
def GeneratesMultipleIns (reg : Registry) (id : Nat) : Bool := GeneratesMultipleInsF (lookupFlags reg id)

def SupportsContainmentF (flags : Nat) : Bool := (flags &&& HW_Flag_NoContainment) == 0
def SupportsContainment (reg : Registry) (id : Nat) : Bool := SupportsContainmentF (lookupFlags reg id)

def CopiesUpperBitsF (flags : Nat) : Bool := (flags &&& HW_Flag_CopyUpperBits) != 0
def CopiesUpperBits (reg : Registry) (id : Nat) : Bool := CopiesUpperBitsF (lookupFlags reg id)

def BaseTypeFromFirstArgF (flags : Nat) : Bool := (flags &&& HW_Flag_BaseTypeFromFirstArg) != 0
def BaseTypeFromFirstArg (reg : Registry) (id : Nat) : Bool := BaseTypeFromFirstArgF (lookupFlags reg id)

def IsFloatingPointUsedF (flags : Nat) : Bool := (flags &&& HW_Flag_NoFloatingPointUsed) == 0
def IsFloatingPointUsed (reg : Registry) (id : Nat) : Bool := IsFloatingPointUsedF (lookupFlags reg id)

def MaybeImmF (flags : Nat) : Bool := (flags &&& HW_Flag_MaybeIMM) != 0
def MaybeImm (reg : Registry) (id : Nat) : Bool := MaybeImmF (lookupFlags reg id)

def MaybeMemoryLoadF (flags : Nat) : Bool := (flags &&& HW_Flag_MaybeMemoryLoad) != 0
def MaybeMemoryLoad (reg : Registry) (id : Nat) : Bool := MaybeMemoryLoadF (lookupFlags reg id)

def MaybeMemoryStoreF (flags : Nat) : Bool := (flags &&& HW_Flag_MaybeMemoryStore) != 0
def MaybeMemoryStore (reg : Registry) (id : Nat) : Bool := MaybeMemoryStoreF (lookupFlags reg id)

def NoJmpTableImmF (flags : Nat) : Bool := (flags &&& HW_Flag_NoJmpTableIMM) != 0
def NoJmpTableImm (reg : Registry) (id : Nat) : Bool := NoJmpTableImmF (lookupFlags reg id)

def Is64BitOnlyF (flags : Nat) : Bool := (flags &&& HW_Flag_64BitOnly) != 0
def Is64BitOnly (reg : Registry) (id : Nat) : Bool := Is64BitOnlyF (lookupFlags reg id)

def SecondArgMaybe64BitF (flags : Nat) : Bool := (flags &&& HW_Flag_SecondArgMaybe64Bit) != 0
def SecondArgMaybe64Bit (reg : Registry) (id : Nat) : Bool := SecondArgMaybe64BitF (lookupFlags reg id)

def BaseTypeFromSecondArgF (flags : Nat) : Bool := (flags &&& HW_Flag_BaseTypeFromSecondArg) != 0
def BaseTypeFromSecondArg (reg : Registry) (id : Nat) : Bool := BaseTypeFromSecondArgF (lookupFlags reg id)

def HasSpecialCodegenF (flags : Nat) : Bool := (flags &&& HW_Flag_SpecialCodeGen) != 0
def HasSpecialCodegen (reg : Registry) (id : Nat) : Bool := HasSpecialCodegenF (lookupFlags reg id)

def HasRMWSemanticsF (flags : Nat) : Bool := (flags &&& HW_Flag_NoRMWSemantics) == 0
def HasRMWSemantics (reg : Registry) (id : Nat) : Bool := HasRMWSemanticsF (lookupFlags reg id)

def HasSpecialImportF (flags : Nat) : Bool := (flags &&& HW_Flag_SpecialImport) != 0
def HasSpecialImport (reg : Registry) (id : Nat) : Bool := HasSpecialImportF (lookupFlags reg id)

/-! ## Immediate Constraint Evaluator -/

/-- Modelled from the spec: `HWIntrinsicInfo::lookupImmUpperBound`
(implemented in the .cpp file, outside src/).  "Upper bound: when
`FullRangeImmediate` is set, the bound is the full native immediate width
(e.g., 255 for an 8-bit field).  Otherwise the bound is intrinsic-specific
... this mapping must be supplied as part of the per-intrinsic data", here
the registry's `immUpperBoundData`. -/
def lookupImmUpperBound (reg : Registry) (id : Nat) : Int :=
  if HasFullRangeImm reg id then 255 else reg.immUpperBoundData id

/-- Modelled from the spec: `HWIntrinsicInfo::isInImmRange` (implemented in
the .cpp file, outside src/).  "Validation: a candidate integer is in range
iff `0 <= value <= upper_bound`." -/
def isInImmRange (reg : Registry) (id : Nat) (ival : Int) : Bool :=
  decide (0 ≤ ival ∧ ival ≤ lookupImmUpperBound reg id)

/-- Outcome of evaluating a required-constant operand that turns out not to
be a compile-time constant. -/
inductive NonConstImmOutcome where
  | jumpTableExpansion
  | hardFailure
deriving DecidableEq, Repr

/-- Modelled from the spec: the importer's fallback policy for a
required-constant intrinsic whose actual operand is not a compile-time
constant (the shaping pass consuming `NoJmpTableImm`, outside src/):
"if `NoJumpTableFallback` is absent, the consuming shaping pass must
synthesize a multi-way dispatch ...; if `NoJumpTableFallback` is present,
no safe fallback exists and this is a hard compile-time failure for that
call". -/
def nonConstImmFallback (reg : Registry) (id : Nat) : NonConstImmOutcome :=
  if NoJmpTableImm reg id then .hardFailure else .jumpTableExpansion

/-! ## Name Resolver -/

/-- Modelled from the spec: `HWIntrinsicInfo::lookupIsa(const char*)`
(implemented in the .cpp file, outside src/): exact-match resolution of an
extension-class-name to an `InstructionSet`; "Unknown inputs return an
explicit 'not recognized' sentinel, never a fatal error". -/
def lookupIsa (reg : Registry) (className : String) : Nat :=
  match reg.isaNames.find? (fun p => p.1 == className) with
  | some p => p.2
  | none => InstructionSet_ILLEGAL

/-- Modelled from the spec: `HWIntrinsicInfo::lookupId(const char*, const
char*)` (implemented in the .cpp file, outside src/): resolves the class
name to an ISA, then scans the table for a row owned by that ISA whose
`name` matches the method name exactly; any miss yields the `NI_Illegal`
sentinel, never a failure. -/
def lookupIdByName (reg : Registry) (className methodName : String) : Nat :=
  let isa := lookupIsa reg className
  if isa == InstructionSet_ILLEGAL then NI_Illegal
  else
    match reg.table.find? (fun info => info.isa == isa && info.name == methodName) with
    | some info => info.id
    | none => NI_Illegal

/-! ## Signature-Aware Sizing -/

/-- The part of a call signature that signature-aware sizing inspects,
abstracted: whether the operand/return type denotes a wide (256-bit-class)
vector type. -/
structure SigInfo where
  isWide : Bool

/-- Modelled from the spec: the signature-aware
`HWIntrinsicInfo::lookupSimdSize(Compiler*, NamedIntrinsic,
CORINFO_SIG_INFO*)` overload (implemented in the .cpp file, outside src/):
"Rule: inspect the operand/return type; if it denotes a wide (e.g.,
256-bit-class) vector type, report that width; otherwise report the
narrower nominal width.  When the flag is absent, this component simply
returns the descriptor's static `simd_size` unchanged." -/
def lookupSimdSizeSig (reg : Registry) (id : Nat) (sig : SigInfo) : Nat :=
  if HasFixedSimdSize reg id then lookupSimdSize reg id
  else if sig.isWide then 32 else 16

/-! ## Per-element-type opcode lookup -/

/-- Modelled from the spec: ordinal of `TYP_BYTE` in the JIT `var_types`
enumeration (vartypes.h, outside src/).  Only the distance to `TYP_DOUBLE`
matters for the bounds reasoning. -/
def TYP_BYTE : Nat := 4

/-- Modelled from the spec: ordinal of `TYP_DOUBLE` in `var_types`.  The
element-type universe `TYP_BYTE .. TYP_DOUBLE` has exactly 10 consecutive
members (byte/ubyte/short/ushort/int/uint/long/ulong/float/double),
matching the descriptor's `instruction ins[10]` row. -/
def TYP_DOUBLE : Nat := TYP_BYTE + 9

/-- Embeds `HWIntrinsicInfo::lookupIns(NamedIntrinsic, var_types)` (in src/):
`assert((type >= TYP_BYTE) && (type <= TYP_DOUBLE)); return
lookup(id).ins[type - TYP_BYTE];`.  The assert becomes a dependent guard:
inside it the access is the source's `ins[type - TYP_BYTE]`; an argument
violating the assert yields `none`. -/
def lookupIns (reg : Registry) (id : Nat) (ty : Nat) : Option instruction :=
  if h : TYP_BYTE ≤ ty ∧ ty ≤ TYP_DOUBLE then
    some ((lookup reg id).ins ⟨ty - TYP_BYTE, by
      obtain ⟨h1, h2⟩ := h
      simp only [TYP_BYTE, TYP_DOUBLE] at h1 h2 ⊢
      omega⟩)
  else none

/-! ## Registry well-formedness -/

/-- The authored-table invariant behind the spec's identity law: the row
stored at index `k` carries identifier `start + 1 + k`, i.e. the table's
`id` column agrees with its position (the .cpp table is authored this way,
and `lookup` relies on it). -/
def Registry.WellFormed (reg : Registry) : Prop :=
  ∀ k, k < reg.table.length → (reg.table.getD k defaultInfo).id = reg.start + 1 + k

instance (reg : Registry) : Decidable reg.WellFormed := by
  unfold Registry.WellFormed; infer_instance

/-! ## A small concrete registry, used to instantiate the theorems below
on concrete inputs -/

/-- A simple commutative full-range-immediate SIMD row. -/
def sampleAdd : HWIntrinsicInfo :=
  { id := 1, name := "Add", isa := 1, ival := -1, simdSize := 16, numArgs := 2,
    ins := fun _ => 70, category := .HW_Category_SimpleSIMD,
    flags := HW_Flag_Commutative ||| HW_Flag_FullRangeIMM }

/-- A flagless row (`HW_Flag_NoFlag`). -/
def sampleSub : HWIntrinsicInfo :=
  { id := 2, name := "Subtract", isa := 1, ival := -1, simdSize := 16, numArgs := 2,
    ins := fun _ => 71, category := .HW_Category_SimpleSIMD,
    flags := HW_Flag_NoFlag }

/-- An immediate-category row with the no-jump-table trait. -/
def sampleExtract : HWIntrinsicInfo :=
  { id := 3, name := "Extract", isa := 1, ival := -1, simdSize := 16, numArgs := 2,
    ins := fun _ => 72, category := .HW_Category_IMM,
    flags := HW_Flag_NoJmpTableIMM }

/-- A three-row registry: ids 1..3, one ISA named "Sse", non-full-range
immediate upper bound 3 (a 4-lane shuffle shape). -/
def sampleReg : Registry :=
  { start := 0, table := [sampleAdd, sampleSub, sampleExtract],
    immUpperBoundData := fun _ => 3, isaNames := [("Sse", 1)] }

/-! ## Helper lemmas: a single-bit mask test reads exactly one bit -/

/-- A positive-polarity mask test against the single-bit mask `2 ^ k` reads
bit `k` of the flag word. -/
lemma and_two_pow_bne_zero (f k : Nat) : ((f &&& 2 ^ k) != 0) = f.testBit k := by
  rw [Nat.and_two_pow]
  rcases h : f.testBit k with _ | _ <;> simp [h]

/-- A negated-polarity mask test against the single-bit mask `2 ^ k` reads
the complement of bit `k` of the flag word. -/
lemma and_two_pow_beq_zero (f k : Nat) : ((f &&& 2 ^ k) == 0) = !f.testBit k := by
  rw [Nat.and_two_pow]
  rcases h : f.testBit k with _ | _ <;> simp [h]

/-! ## Characterization of each flag predicate by its own bit -/

lemma IsCommutativeF_testBit (f : Nat) : IsCommutativeF f = f.testBit 0 := by
  rw [IsCommutativeF, show HW_Flag_Commutative = 2 ^ 0 by norm_num [HW_Flag_Commutative], and_two_pow_bne_zero]

lemma HasFullRangeImmF_testBit (f : Nat) : HasFullRangeImmF f = f.testBit 1 := by
  rw [HasFullRangeImmF, show HW_Flag_FullRangeIMM = 2 ^ 1 by norm_num [HW_Flag_FullRangeIMM], and_two_pow_bne_zero]

lemma IsOneTypeGenericF_testBit (f : Nat) : IsOneTypeGenericF f = f.testBit 2 := by
  rw [IsOneTypeGenericF, show HW_Flag_OneTypeGeneric = 2 ^ 2 by norm_num [HW_Flag_OneTypeGeneric], and_two_pow_bne_zero]

lemma IsTwoTypeGenericF_testBit (f : Nat) : IsTwoTypeGenericF f = f.testBit 3 := by
  rw [IsTwoTypeGenericF, show HW_Flag_TwoTypeGeneric = 2 ^ 3 by norm_num [HW_Flag_TwoTypeGeneric], and_two_pow_bne_zero]

lemma RequiresCodegenF_testBit (f : Nat) : RequiresCodegenF f = !f.testBit 4 := by
  rw [RequiresCodegenF, show HW_Flag_NoCodeGen = 2 ^ 4 by norm_num [HW_Flag_NoCodeGen], and_two_pow_beq_zero]

lemma HasFixedSimdSizeF_testBit (f : Nat) : HasFixedSimdSizeF f = !f.testBit 5 := by
  rw [HasFixedSimdSizeF, show HW_Flag_UnfixedSIMDSize = 2 ^ 5 by norm_num [HW_Flag_UnfixedSIMDSize], and_two_pow_beq_zero]

lemma GeneratesMultipleInsF_testBit (f : Nat) : GeneratesMultipleInsF f = f.testBit 7 := by
  rw [GeneratesMultipleInsF, show HW_Flag_MultiIns = 2 ^ 7 by norm_num [HW_Flag_MultiIns], and_two_pow_bne_zero]

lemma SupportsContainmentF_testBit (f : Nat) : SupportsContainmentF f = !f.testBit 8 := by
  rw [SupportsContainmentF, show HW_Flag_NoContainment = 2 ^ 8 by norm_num [HW_Flag_NoContainment], and_two_pow_beq_zero]

lemma CopiesUpperBitsF_testBit (f : Nat) : CopiesUpperBitsF f = f.testBit 9 := by
  rw [CopiesUpperBitsF, show HW_Flag_CopyUpperBits = 2 ^ 9 by norm_num [HW_Flag_CopyUpperBits], and_two_pow_bne_zero]

lemma BaseTypeFromFirstArgF_testBit (f : Nat) : BaseTypeFromFirstArgF f = f.testBit 10 := by
  rw [BaseTypeFromFirstArgF, show HW_Flag_BaseTypeFromFirstArg = 2 ^ 10 by norm_num [HW_Flag_BaseTypeFromFirstArg], and_two_pow_bne_zero]

lemma IsFloatingPointUsedF_testBit (f : Nat) : IsFloatingPointUsedF f = !f.testBit 11 := by
  rw [IsFloatingPointUsedF, show HW_Flag_NoFloatingPointUsed = 2 ^ 11 by norm_num [HW_Flag_NoFloatingPointUsed], and_two_pow_beq_zero]

lemma MaybeImmF_testBit (f : Nat) : MaybeImmF f = f.testBit 12 := by
  rw [MaybeImmF, show HW_Flag_MaybeIMM = 2 ^ 12 by norm_num [HW_Flag_MaybeIMM], and_two_pow_bne_zero]

lemma NoJmpTableImmF_testBit (f : Nat) : NoJmpTableImmF f = f.testBit 13 := by
  rw [NoJmpTableImmF, show HW_Flag_NoJmpTableIMM = 2 ^ 13 by norm_num [HW_Flag_NoJmpTableIMM], and_two_pow_bne_zero]

lemma Is64BitOnlyF_testBit (f : Nat) : Is64BitOnlyF f = f.testBit 14 := by
  rw [Is64BitOnlyF, show HW_Flag_64BitOnly = 2 ^ 14 by norm_num [HW_Flag_64BitOnly], and_two_pow_bne_zero]

lemma SecondArgMaybe64BitF_testBit (f : Nat) : SecondArgMaybe64BitF f = f.testBit 15 := by
  rw [SecondArgMaybe64BitF, show HW_Flag_SecondArgMaybe64Bit = 2 ^ 15 by norm_num [HW_Flag_SecondArgMaybe64Bit], and_two_pow_bne_zero]

lemma BaseTypeFromSecondArgF_testBit (f : Nat) : BaseTypeFromSecondArgF f = f.testBit 16 := by
  rw [BaseTypeFromSecondArgF, show HW_Flag_BaseTypeFromSecondArg = 2 ^ 16 by norm_num [HW_Flag_BaseTypeFromSecondArg], and_two_pow_bne_zero]

lemma HasSpecialCodegenF_testBit (f : Nat) : HasSpecialCodegenF f = f.testBit 17 := by
  rw [HasSpecialCodegenF, show HW_Flag_SpecialCodeGen = 2 ^ 17 by norm_num [HW_Flag_SpecialCodeGen], and_two_pow_bne_zero]

lemma HasRMWSemanticsF_testBit (f : Nat) : HasRMWSemanticsF f = !f.testBit 18 := by
  rw [HasRMWSemanticsF, show HW_Flag_NoRMWSemantics = 2 ^ 18 by norm_num [HW_Flag_NoRMWSemantics], and_two_pow_beq_zero]

lemma HasSpecialImportF_testBit (f : Nat) : HasSpecialImportF f = f.testBit 19 := by
  rw [HasSpecialImportF, show HW_Flag_SpecialImport = 2 ^ 19 by norm_num [HW_Flag_SpecialImport], and_two_pow_bne_zero]

lemma MaybeMemoryLoadF_testBit (f : Nat) : MaybeMemoryLoadF f = f.testBit 20 := by
  rw [MaybeMemoryLoadF, show HW_Flag_MaybeMemoryLoad = 2 ^ 20 by norm_num [HW_Flag_MaybeMemoryLoad], and_two_pow_bne_zero]

lemma MaybeMemoryStoreF_testBit (f : Nat) : MaybeMemoryStoreF f = f.testBit 21 := by
  rw [MaybeMemoryStoreF, show HW_Flag_MaybeMemoryStore = 2 ^ 21 by norm_num [HW_Flag_MaybeMemoryStore], and_two_pow_bne_zero]

/-! ## Claim theorems -/

/-- C1: for every intrinsic with a required compile-time-constant operand
and every integer v, `isInImmRange id v` returns true iff
`0 <= v <= lookupImmUpperBound id`; in particular, for an intrinsic without
the FullRangeIMM flag and (authored) upper bound B, validation accepts
exactly the values 0..B and rejects B+1 and -1. -/
theorem isInImmRange_iff_bounds (reg : Registry) (id : Nat) :
    (∀ v : Int, isInImmRange reg id v = true ↔
      0 ≤ v ∧ v ≤ lookupImmUpperBound reg id) ∧
    (HasFullRangeImm reg id = false →
      (∀ v : Int, 0 ≤ v → v ≤ reg.immUpperBoundData id →
        isInImmRange reg id v = true) ∧
      isInImmRange reg id (reg.immUpperBoundData id + 1) = false ∧
      isInImmRange reg id (-1) = false) := by
  constructor
  · intro v
    simp [isInImmRange]
  · intro h
    have hub : lookupImmUpperBound reg id = reg.immUpperBoundData id := by
      unfold lookupImmUpperBound
      rw [h]
      simp
    refine ⟨fun v h0 hv => ?_, ?_, ?_⟩ <;>
      simp only [isInImmRange, hub, decide_eq_true_eq,
        decide_eq_false_iff_not, not_and, not_le]
    · exact ⟨h0, hv⟩
    · omega
    · omega

/-- Witness for C1 at the concrete sample registry: the id-3 row has no
FullRangeIMM flag and authored bound 3; value 2 is accepted and -1 is
rejected. -/
theorem isInImmRange_iff_bounds_witness :
    isInImmRange sampleReg 3 2 = true ∧ isInImmRange sampleReg 3 (-1) = false := by
  have h := (isInImmRange_iff_bounds sampleReg 3).2 (by decide)
  refine ⟨h.1 2 (by decide) ?_, h.2.2⟩
  show (2 : Int) ≤ sampleReg.immUpperBoundData 3
  decide

/-- C2: for every intrinsic whose flags include FullRangeIMM, the immediate
upper bound is 255, so immediate validation accepts every value in 0..255
and rejects every value outside that range. -/
theorem hasFullRangeImm_bound_255 (reg : Registry) (id : Nat)
    (h : HasFullRangeImm reg id = true) :
    lookupImmUpperBound reg id = 255 ∧
    ∀ v : Int, isInImmRange reg id v = true ↔ 0 ≤ v ∧ v ≤ 255 := by
  have hub : lookupImmUpperBound reg id = 255 := by
    unfold lookupImmUpperBound
    rw [h]
    simp
  refine ⟨hub, fun v => ?_⟩
  simp [isInImmRange, hub]

/-- Witness for C2: the id-1 sample row carries FullRangeIMM; its bound is
255, 255 is accepted and 256 rejected. -/
theorem hasFullRangeImm_bound_255_witness :
    lookupImmUpperBound sampleReg 1 = 255 ∧
    isInImmRange sampleReg 1 255 = true ∧ isInImmRange sampleReg 1 256 = false := by
  have h := hasFullRangeImm_bound_255 sampleReg 1 (by decide)
  refine ⟨h.1, (h.2 255).mpr (by decide), ?_⟩
  rw [show (isInImmRange sampleReg 1 256 = false) = ¬(isInImmRange sampleReg 1 256 = true) by simp]
  intro hc
  have := (h.2 256).mp hc
  omega

/-- C3: for a required-constant intrinsic whose actual operand is not a
compile-time constant, the outcome is a jump-table expansion request when
NoJmpTableIMM is absent, and a hard compile-time failure when it is
present. -/
theorem nonConstImmFallback_policy (reg : Registry) (id : Nat) :
    (NoJmpTableImm reg id = false →
      nonConstImmFallback reg id = NonConstImmOutcome.jumpTableExpansion) ∧
    (NoJmpTableImm reg id = true →
      nonConstImmFallback reg id = NonConstImmOutcome.hardFailure) := by
  unfold nonConstImmFallback
  constructor <;> intro h <;> rw [h] <;> simp

/-- Witness for C3: the flagless id-2 row falls back to a jump table, the
NoJmpTableIMM id-3 row hard-fails. -/
theorem nonConstImmFallback_policy_witness :
    nonConstImmFallback sampleReg 2 = NonConstImmOutcome.jumpTableExpansion ∧
    nonConstImmFallback sampleReg 3 = NonConstImmOutcome.hardFailure :=
  ⟨(nonConstImmFallback_policy sampleReg 2).1 (by decide),
   (nonConstImmFallback_policy sampleReg 3).2 (by decide)⟩

/-- C4: name-based resolution never fails: an unknown class name resolves
to the ILLEGAL ISA sentinel, a class resolving to the ILLEGAL sentinel
makes the pair resolve to NI_Illegal, and a (class, method) pair matching
no table row resolves to NI_Illegal. -/
theorem name_resolution_sentinels (reg : Registry) (className methodName : String) :
    ((∀ p ∈ reg.isaNames, p.1 ≠ className) →
      lookupIsa reg className = InstructionSet_ILLEGAL) ∧
    (lookupIsa reg className = InstructionSet_ILLEGAL →
      lookupIdByName reg className methodName = NI_Illegal) ∧
    ((∀ info ∈ reg.table,
        ¬(info.isa = lookupIsa reg className ∧ info.name = methodName)) →
      lookupIdByName reg className methodName = NI_Illegal) := by
  refine ⟨fun h => ?_, fun h => ?_, fun h => ?_⟩
  · unfold lookupIsa
    have hnone : reg.isaNames.find? (fun p => p.1 == className) = none := by
      rw [List.find?_eq_none]
      intro p hp
      simpa using h p hp
    rw [hnone]
  · unfold lookupIdByName
    simp [h]
  · unfold lookupIdByName
    by_cases hisa : lookupIsa reg className = InstructionSet_ILLEGAL
    · simp [hisa]
    · have hfind : reg.table.find?
          (fun info => info.isa == lookupIsa reg className && info.name == methodName)
            = none := by
        rw [List.find?_eq_none]
        intro info hinfo
        simp only [Bool.and_eq_true, beq_iff_eq, not_and]
        intro ha hb
        exact h info hinfo ⟨ha, hb⟩
      simp [hisa, hfind]

/-- Witness for C4: in the sample registry, the unknown class "Avx512"
resolves to the ILLEGAL ISA, and the unknown pair ("Sse", "Nope") resolves
to NI_Illegal. -/
theorem name_resolution_sentinels_witness :
    lookupIsa sampleReg "Avx512" = InstructionSet_ILLEGAL ∧
    lookupIdByName sampleReg "Sse" "Nope" = NI_Illegal :=
  ⟨(name_resolution_sentinels sampleReg "Avx512" "x").1 (by decide),
   (name_resolution_sentinels sampleReg "Sse" "Nope").2.2 (by decide)⟩

/-- C5: for every registered intrinsic identifier i of a well-formed
registry (the authored table stores row i at index i - start - 1),
`lookupId i = lookup(i).id = i`. -/
theorem lookupId_identity (reg : Registry) (id : Nat)
    (hwf : reg.WellFormed) (hreg : reg.isRegistered id) :
    lookupId reg id = (lookup reg id).id ∧ lookupId reg id = id := by
  refine ⟨rfl, ?_⟩
  obtain ⟨h1, h2⟩ := hreg
  have hk := hwf (id - reg.start - 1) h2
  unfold lookupId lookup
  rw [hk]
  omega

/-- Witness for C5: the sample registry is well-formed and id 2 reads back
as 2. -/
theorem lookupId_identity_witness : lookupId sampleReg 2 = 2 :=
  (lookupId_identity sampleReg 2 (by decide) (by decide)).2

/-- C6: every flag predicate depends only on its own distinct flag bit:
for any two flag words that agree on that one bit, the predicate returns
the same value, so setting or clearing any other flag never changes the
result. -/
theorem flag_predicates_bit_local (f g : Nat) :
    (f.testBit 0 = g.testBit 0 → IsCommutativeF f = IsCommutativeF g) ∧
    (f.testBit 1 = g.testBit 1 → HasFullRangeImmF f = HasFullRangeImmF g) ∧
    (f.testBit 2 = g.testBit 2 → IsOneTypeGenericF f = IsOneTypeGenericF g) ∧
    (f.testBit 3 = g.testBit 3 → IsTwoTypeGenericF f = IsTwoTypeGenericF g) ∧
    (f.testBit 4 = g.testBit 4 → RequiresCodegenF f = RequiresCodegenF g) ∧
    (f.testBit 5 = g.testBit 5 → HasFixedSimdSizeF f = HasFixedSimdSizeF g) ∧
    (f.testBit 7 = g.testBit 7 → GeneratesMultipleInsF f = GeneratesMultipleInsF g) ∧
    (f.testBit 8 = g.testBit 8 → SupportsContainmentF f = SupportsContainmentF g) ∧
    (f.testBit 9 = g.testBit 9 → CopiesUpperBitsF f = CopiesUpperBitsF g) ∧
    (f.testBit 10 = g.testBit 10 → BaseTypeFromFirstArgF f = BaseTypeFromFirstArgF g) ∧
    (f.testBit 11 = g.testBit 11 → IsFloatingPointUsedF f = IsFloatingPointUsedF g) ∧
    (f.testBit 12 = g.testBit 12 → MaybeImmF f = MaybeImmF g) ∧
    (f.testBit 13 = g.testBit 13 → NoJmpTableImmF f = NoJmpTableImmF g) ∧
    (f.testBit 14 = g.testBit 14 → Is64BitOnlyF f = Is64BitOnlyF g) ∧
    (f.testBit 15 = g.testBit 15 → SecondArgMaybe64BitF f = SecondArgMaybe64BitF g) ∧
    (f.testBit 16 = g.testBit 16 → BaseTypeFromSecondArgF f = BaseTypeFromSecondArgF g) ∧
    (f.testBit 17 = g.testBit 17 → HasSpecialCodegenF f = HasSpecialCodegenF g) ∧
    (f.testBit 18 = g.testBit 18 → HasRMWSemanticsF f = HasRMWSemanticsF g) ∧
    (f.testBit 19 = g.testBit 19 → HasSpecialImportF f = HasSpecialImportF g) ∧
    (f.testBit 20 = g.testBit 20 → MaybeMemoryLoadF f = MaybeMemoryLoadF g) ∧
    (f.testBit 21 = g.testBit 21 → MaybeMemoryStoreF f = MaybeMemoryStoreF g) := by
  refine ⟨fun h => ?_, fun h => ?_, fun h => ?_, fun h => ?_, fun h => ?_, fun h => ?_, fun h => ?_, fun h => ?_, fun h => ?_, fun h => ?_, fun h => ?_, fun h => ?_, fun h => ?_, fun h => ?_, fun h => ?_, fun h => ?_, fun h => ?_, fun h => ?_, fun h => ?_, fun h => ?_, fun h => ?_⟩
  · rw [IsCommutativeF_testBit, IsCommutativeF_testBit, h]
  · rw [HasFullRangeImmF_testBit, HasFullRangeImmF_testBit, h]
  · rw [IsOneTypeGenericF_testBit, IsOneTypeGenericF_testBit, h]
  · rw [IsTwoTypeGenericF_testBit, IsTwoTypeGenericF_testBit, h]
  · rw [RequiresCodegenF_testBit, RequiresCodegenF_testBit, h]
  · rw [HasFixedSimdSizeF_testBit, HasFixedSimdSizeF_testBit, h]
  · rw [GeneratesMultipleInsF_testBit, GeneratesMultipleInsF_testBit, h]
  · rw [SupportsContainmentF_testBit, SupportsContainmentF_testBit, h]
  · rw [CopiesUpperBitsF_testBit, CopiesUpperBitsF_testBit, h]
  · rw [BaseTypeFromFirstArgF_testBit, BaseTypeFromFirstArgF_testBit, h]
  · rw [IsFloatingPointUsedF_testBit, IsFloatingPointUsedF_testBit, h]
  · rw [MaybeImmF_testBit, MaybeImmF_testBit, h]
  · rw [NoJmpTableImmF_testBit, NoJmpTableImmF_testBit, h]
  · rw [Is64BitOnlyF_testBit, Is64BitOnlyF_testBit, h]
  · rw [SecondArgMaybe64BitF_testBit, SecondArgMaybe64BitF_testBit, h]
  · rw [BaseTypeFromSecondArgF_testBit, BaseTypeFromSecondArgF_testBit, h]
  · rw [HasSpecialCodegenF_testBit, HasSpecialCodegenF_testBit, h]
  · rw [HasRMWSemanticsF_testBit, HasRMWSemanticsF_testBit, h]
  · rw [HasSpecialImportF_testBit, HasSpecialImportF_testBit, h]
  · rw [MaybeMemoryLoadF_testBit, MaybeMemoryLoadF_testBit, h]
  · rw [MaybeMemoryStoreF_testBit, MaybeMemoryStoreF_testBit, h]

/-- Witness for C6: flag words 1 and 3 agree on bit 0 (and differ on bit
1), so IsCommutative agrees on them. -/
theorem flag_predicates_bit_local_witness : IsCommutativeF 1 = IsCommutativeF 3 :=
  (flag_predicates_bit_local 1 3).1 (by decide)

/-- C7: `SupportsContainment id` returns true iff the descriptor flag word
does not contain the NoContainment bit (bit 8, mask 0x100). -/
theorem supportsContainment_iff (reg : Registry) (id : Nat) :
    SupportsContainment reg id = true ↔ (lookupFlags reg id).testBit 8 = false := by
  rw [SupportsContainment, SupportsContainmentF_testBit]
  rcases h : (lookupFlags reg id).testBit 8 with _ | _ <;> simp [h]

/-- Witness for C7 at the sample registry: the flagless id-2 row supports
containment. -/
theorem supportsContainment_iff_witness : SupportsContainment sampleReg 2 = true :=
  (supportsContainment_iff sampleReg 2).mpr (by decide)

/-- C8: when UnfixedSIMDSize is absent (HasFixedSimdSize is true),
signature-aware sizing returns the descriptor static simdSize field
unchanged, for any call signature. -/
theorem lookupSimdSizeSig_fixed (reg : Registry) (id : Nat) (sig : SigInfo)
    (h : HasFixedSimdSize reg id = true) :
    lookupSimdSizeSig reg id sig = (lookup reg id).simdSize := by
  unfold lookupSimdSizeSig
  rw [h]
  simp [lookupSimdSize]

/-- Witness for C8: the id-2 sample row has a fixed SIMD size; a wide
signature still yields the table value 16. -/
theorem lookupSimdSizeSig_fixed_witness : lookupSimdSizeSig sampleReg 2 ⟨true⟩ = 16 := by
  rw [lookupSimdSizeSig_fixed sampleReg 2 ⟨true⟩ (by decide)]
  decide

/-- C9: under the guarding assertion TYP_BYTE <= type <= TYP_DOUBLE, the
index type - TYP_BYTE lies within the 10-slot opcode row, and lookupIns
returns that defined slot (never an out-of-bounds read). -/
theorem lookupIns_in_bounds (reg : Registry) (id : Nat) (ty : Nat)
    (h1 : TYP_BYTE ≤ ty) (h2 : ty ≤ TYP_DOUBLE) :
    ty - TYP_BYTE < 10 ∧
    ∃ k : Fin 10, (k : Nat) = ty - TYP_BYTE ∧
      lookupIns reg id ty = some ((lookup reg id).ins k) := by
  have hb : ty - TYP_BYTE < 10 := by
    simp only [TYP_BYTE, TYP_DOUBLE] at h1 h2 ⊢
    omega
  refine ⟨hb, ⟨ty - TYP_BYTE, hb⟩, rfl, ?_⟩
  unfold lookupIns
  rw [dif_pos ⟨h1, h2⟩]

/-- Witness for C9: element-type ordinal TYP_BYTE + 2 satisfies the
assertion and indexes slot 2. -/
theorem lookupIns_in_bounds_witness :
    TYP_BYTE ≤ 6 ∧ 6 ≤ TYP_DOUBLE ∧ 6 - TYP_BYTE < 10 :=
  ⟨by decide, by decide, (lookupIns_in_bounds sampleReg 1 6 (by decide) (by decide)).1⟩

/-- C10: on a descriptor whose flag word is HW_Flag_NoFlag (0), the five
negated-polarity predicates report true and the sixteen positive-polarity
predicates report false. -/
theorem noFlag_predicate_values (reg : Registry) (id : Nat)
    (h : lookupFlags reg id = HW_Flag_NoFlag) :
    RequiresCodegen reg id = true ∧ HasFixedSimdSize reg id = true ∧
    SupportsContainment reg id = true ∧ IsFloatingPointUsed reg id = true ∧
    HasRMWSemantics reg id = true ∧
    IsCommutative reg id = false ∧ HasFullRangeImm reg id = false ∧
    IsOneTypeGeneric reg id = false ∧ IsTwoTypeGeneric reg id = false ∧
    GeneratesMultipleIns reg id = false ∧ CopiesUpperBits reg id = false ∧
    BaseTypeFromFirstArg reg id = false ∧ BaseTypeFromSecondArg reg id = false ∧
    MaybeImm reg id = false ∧ MaybeMemoryLoad reg id = false ∧
    MaybeMemoryStore reg id = false ∧ NoJmpTableImm reg id = false ∧
    Is64BitOnly reg id = false ∧ SecondArgMaybe64Bit reg id = false ∧
    HasSpecialCodegen reg id = false ∧ HasSpecialImport reg id = false := by
  simp only [RequiresCodegen, HasFixedSimdSize, SupportsContainment,
    IsFloatingPointUsed, HasRMWSemantics, IsCommutative, HasFullRangeImm,
    IsOneTypeGeneric, IsTwoTypeGeneric, GeneratesMultipleIns, CopiesUpperBits,
    BaseTypeFromFirstArg, BaseTypeFromSecondArg, MaybeImm, MaybeMemoryLoad,
    MaybeMemoryStore, NoJmpTableImm, Is64BitOnly, SecondArgMaybe64Bit,
    HasSpecialCodegen, HasSpecialImport, h]
  decide

/-- Witness for C10: the id-2 sample row has flag word 0; RequiresCodegen
reports true on it. -/
theorem noFlag_predicate_values_witness : RequiresCodegen sampleReg 2 = true :=
  (noFlag_predicate_values sampleReg 2 (by decide)).1

end HWIntrinsicXArch
